import Mathlib

/-!
Shallow embedding of the GeoVision viewer (src/basic/main.js) and proofs of
the specification claims about it.

Modelling conventions:
* Scalar coordinates, intensities and distances are rationals (`ℚ`); the
  JavaScript numbers in play are exact small decimals, and claims are about
  exact arithmetic relationships.
* Colors are natural numbers (the hex literals of the source).
* The camera's vertical field of view enters the fitting computation only
  through the value `Math.sin(fov / 2)`; the embedding carries that value as
  the rational parameter `sinHalfFov` instead of evaluating the transcendental
  function, so the fitting arithmetic after the sine is embedded exactly.
* Asynchronous texture/model fetches are embedded by passing the fetch's
  outcome (success or failure) as an explicit argument; the returned promise
  becomes an `Except` value.
* Mutable objects reachable from the viewer (scene objects touched by the
  picking logic) live in an indexed store (`List SceneObject`); a JavaScript
  object reference becomes an index into the store.
-/

namespace GeoVision

/-- Vector of three rational coordinates, embedding `THREE.Vector3`. -/
structure Vec3 where
  x : ℚ
  y : ℚ
  z : ℚ
  deriving Repr, DecidableEq

/-- Axis-aligned bounding box, embedding `THREE.Box3` (min/max corners). -/
structure Box3 where
  min : Vec3
  max : Vec3
  deriving Repr, DecidableEq

/-- Size of a box, embedding `Box3.getSize` (componentwise max - min). -/
def boxSize (b : Box3) : Vec3 :=
  ⟨b.max.x - b.min.x, b.max.y - b.min.y, b.max.z - b.min.z⟩

/-- Center of a box, embedding `Box3.getCenter` (componentwise midpoint). -/
def boxCenter (b : Box3) : Vec3 :=
  ⟨(b.min.x + b.max.x) / 2, (b.min.y + b.max.y) / 2, (b.min.z + b.max.z) / 2⟩

/-- Largest of the three box dimensions: `Math.max(size.x, size.y, size.z)`. -/
def maxDimOf (b : Box3) : ℚ :=
  max (boxSize b).x (max (boxSize b).y (boxSize b).z)

/-- Squared Euclidean distance between two points. The claims about camera
distance are stated on squares to stay inside rational arithmetic. -/
def distSq (a b : Vec3) : ℚ :=
  (a.x - b.x) ^ 2 + (a.y - b.y) ^ 2 + (a.z - b.z) ^ 2

/-! ## BasemapManager (src/basic/main.js lines 5-62) -/

/-- Texture wrapping mode; the loader default is clamp, `loadBasemap` sets
`THREE.RepeatWrapping` on both axes. -/
inductive WrapMode where
  | clampToEdge
  | repeatWrapping
  deriving Repr, DecidableEq

/-- Embedding of a `THREE.Texture` as configured by `loadBasemap`: the source
URL it was fetched from, its wrap modes, and its `repeat` vector. -/
structure Texture where
  url : String
  wrapS : WrapMode
  wrapT : WrapMode
  repeatX : ℕ
  repeatY : ℕ
  deriving Repr, DecidableEq

/-- Embedding of the ground-plane mesh's `MeshBasicMaterial`:
`{ map: texture, side: THREE.DoubleSide }`, with the `needsUpdate` flag the
update path sets. -/
structure MapMaterial where
  map : Texture
  doubleSide : Bool
  needsUpdate : Bool
  deriving Repr, DecidableEq

/-- Embedding of the ground-plane `THREE.Mesh` built by `createOrUpdateMap`:
a `size × size` plane, rotated a quarter turn about x to lie horizontal
(`rotation.x = -Math.PI / 2` is recorded as `-1` quarter turns), offset
slightly below the origin, initially visible (the three.js default). -/
structure MapMesh where
  material : MapMaterial
  geometrySize : ℚ
  rotationXQuarterTurns : ℤ
  positionY : ℚ
  visible : Bool
  deriving Repr, DecidableEq

/-- State of a `BasemapManager` instance together with the one piece of scene
state it touches: `sceneMapMeshCount` counts how many ground-plane meshes have
ever been added to the scene by `scene.add`. -/
structure BasemapState where
  mapMesh : Option MapMesh
  currentType : Option String
  sceneMapMeshCount : ℕ
  deriving Repr, DecidableEq

/-- The `BasemapManager` constructor: no mesh, no current type, and the scene
holds no ground-plane mesh. -/
def initBasemap : BasemapState :=
  { mapMesh := none, currentType := none, sceneMapMeshCount := 0 }

/-- URL selection of `loadBasemap` (the `switch` on `type`; anything other
than `satellite` or `dark` falls through to the OSM tile). -/
def urlForType (type : String) : String :=
  if type = "satellite" then
    "https://server.arcgisonline.com/ArcGIS/rest/services/World_Imagery/MapServer/tile/0/0/0"
  else if type = "dark" then
    "https://a.basemaps.cartocdn.com/dark_all/0/0/0.png"
  else
    "https://a.tile.openstreetmap.org/0/0/0.png"

/-- Texture configuration applied in the load callback:
`texture.wrapS = texture.wrapT = THREE.RepeatWrapping; texture.repeat.set(20, 20)`. -/
def configuredTexture (url : String) : Texture :=
  { url := url, wrapS := .repeatWrapping, wrapT := .repeatWrapping
    repeatX := 20, repeatY := 20 }

/-- Embedding of `createOrUpdateMap`: if a mesh exists, swap its material's
texture in place (and set `needsUpdate`); otherwise build the plane mesh and
add it to the scene. -/
def createOrUpdateMap (s : BasemapState) (texture : Texture) : BasemapState :=
  match s.mapMesh with
  | some mesh =>
      let mesh' := { mesh with material := { mesh.material with map := texture, needsUpdate := true } }
      { s with mapMesh := some mesh' }
  | none =>
      let mesh : MapMesh :=
        { material := { map := texture, doubleSide := true, needsUpdate := false }
          geometrySize := 10000
          rotationXQuarterTurns := -1
          positionY := -1/100
          visible := true }
      { s with mapMesh := some mesh, sceneMapMeshCount := s.sceneMapMeshCount + 1 }

/-- Load failure carried by a rejected promise. -/
structure LoadError where
  msg : String
  deriving Repr, DecidableEq

/-- Outcome of one texture fetch issued through `TextureLoader.load`. -/
inductive FetchOutcome where
  | success
  | failure (msg : String)
  deriving Repr, DecidableEq

/-- Embedding of `loadBasemap`: resolve the URL for the kind, fetch the
texture; on success configure it and run `createOrUpdateMap`, resolving the
promise; on fetch failure reject the promise and touch nothing. The fetch's
outcome is an explicit argument; the promise is the `Except` component. -/
def loadBasemap (s : BasemapState) (type : String) (outcome : FetchOutcome) :
    BasemapState × Except LoadError Unit :=
  let url := urlForType type
  match outcome with
  | .success => (createOrUpdateMap s (configuredTexture url), .ok ())
  | .failure msg => (s, .error ⟨msg⟩)

/-- Embedding of `setVisible`: `if (this.mapMesh) this.mapMesh.visible = visible`. -/
def setVisible (s : BasemapState) (visible : Bool) : BasemapState :=
  match s.mapMesh with
  | none => s
  | some mesh => { s with mapMesh := some { mesh with visible := visible } }

/-- Run a sequence of `loadBasemap` calls (kind and fetch outcome for each),
threading the manager state and discarding the promises. -/
def runLoads (s : BasemapState) : List (String × FetchOutcome) → BasemapState
  | [] => s
  | (t, o) :: rest => runLoads (loadBasemap s t o).1 rest

/-- Kind of the most recently resolved (successful) request in a call
sequence, if any. -/
def lastSuccessType : List (String × FetchOutcome) → Option String
  | [] => none
  | (t, o) :: rest =>
      match lastSuccessType rest with
      | some t' => some t'
      | none => match o with
                | .success => some t
                | .failure _ => none

/-! ## CameraFitter: `initializeModel` (src/basic/main.js lines 160-191) -/

/-- Embedding of the loaded model node (`gltf.scene` added to the scene): the
axis-aligned bounding box of its contents in the node's local frame, the
node's own translation, and the shadow flags `initializeModel`'s traversal
sets on every mesh. -/
structure ModelNode where
  localBox : Box3
  position : Vec3
  meshesCastShadow : Bool
  meshesReceiveShadow : Bool
  deriving Repr, DecidableEq

/-- World-space bounding box of the node, embedding
`new THREE.Box3().setFromObject(model)`: the local box translated by the
node's position (the node carries a pure translation). -/
def worldBox (m : ModelNode) : Box3 :=
  { min := ⟨m.localBox.min.x + m.position.x, m.localBox.min.y + m.position.y,
            m.localBox.min.z + m.position.z⟩
    max := ⟨m.localBox.max.x + m.position.x, m.localBox.max.y + m.position.y,
            m.localBox.max.z + m.position.z⟩ }

/-- Grounding step of `initializeModel`: compute the world box, then ASSIGN
`model.position.y = -box.min.y` (an assignment, not an increment). -/
def groundModel (m : ModelNode) : ModelNode :=
  { m with position := { m.position with y := -(worldBox m).min.y } }

/-- Shadow-enabling traversal of `initializeModel`
(`child.castShadow = true; child.receiveShadow = true`). -/
def enableShadows (m : ModelNode) : ModelNode :=
  { m with meshesCastShadow := true, meshesReceiveShadow := true }

/-- Fitting distance of `initializeModel`:
`Math.abs(maxDim / Math.sin(fov / 2)) * 1.2`, with `sinHalfFov` standing for
the value `Math.sin(fov / 2)`. -/
def fitDistance (maxDim sinHalfFov : ℚ) : ℚ :=
  |maxDim / sinHalfFov| * (6/5)

/-- Viewer state touched by `initializeModel`: the loaded model (if any), the
idempotence guard `this.initialized`, the camera position, the orbit-controls
target, and the camera's field of view via the value of `Math.sin(fov / 2)`. -/
structure ViewerState where
  model : Option ModelNode
  initialized : Bool
  cameraPos : Vec3
  controlsTarget : Vec3
  sinHalfFov : ℚ
  deriving Repr, DecidableEq

/-- Embedding of `initializeModel`: bail out if no model is loaded or the
guard is set; otherwise ground the model, recompute the box, derive center,
size and `maxDim`, compute the fitting distance, place the camera at
`center + distance * (0.5, 0.8, 0.5)`, point it and the controls target at
the center, enable shadows on the model's meshes, and set the guard. -/
def initializeModel (s : ViewerState) : ViewerState :=
  match s.model with
  | none => s
  | some m =>
      if s.initialized then s
      else
        let m' := groundModel m
        let newBox := worldBox m'
        let center := boxCenter newBox
        let maxDim := maxDimOf newBox
        let distance := fitDistance maxDim s.sinHalfFov
        { s with
            model := some (enableShadows m')
            initialized := true
            cameraPos := ⟨center.x + distance * (1/2), center.y + distance * (4/5),
                          center.z + distance * (1/2)⟩
            controlsTarget := center }

/-- Minimum world-space Y coordinate of the loaded model, if one is loaded. -/
def modelMinY (s : ViewerState) : Option ℚ :=
  s.model.map (fun m => (worldBox m).min.y)

/-! ## LightingRig (src/basic/main.js lines 107-144, 206-211) -/

/-- State of the three lights, the scene background color, and the `isNight`
flag. Intensities are rationals; colors and positions are the source's
literals. `hemiSkyColor` models `hemisphereLight.color`, the property in
which `THREE.HemisphereLight` stores the sky color (the name `skyColor`
exists only as a constructor parameter, not as a property). The ambient
light's color is fixed at construction and never changed by
`updateLighting`. -/
structure LightingState where
  isNight : Bool
  ambientColor : ℕ
  ambientIntensity : ℚ
  directionalColor : ℕ
  directionalIntensity : ℚ
  directionalPos : Vec3
  hemiSkyColor : ℕ
  hemiGroundColor : ℕ
  hemiIntensity : ℚ
  background : ℕ
  deriving Repr, DecidableEq

/-- JavaScript `TypeError`, thrown when a method is called on `undefined`. -/
structure TypeError where
  msg : String
  deriving Repr, DecidableEq

/-- Embedding of `updateLighting`: branch on `isNight` and perform the
branch's assignments in source order. The fifth statement of either branch is
`this.hemisphereLight.skyColor.set(...)` — but `THREE.HemisphereLight` has no
`skyColor` property (the sky color is stored in `.color`), so that read
yields `undefined` and the `.set(...)` call throws a `TypeError`. The four
assignments made before the throw persist; the hemisphere light's colors and
intensity are never touched; the error propagates to the caller. -/
def updateLighting (s : LightingState) : LightingState × Option TypeError :=
  if s.isNight then
    ({ s with
        ambientIntensity := 1/10
        directionalIntensity := 3/10
        directionalPos := ⟨-100, 80, -50⟩
        directionalColor := 0x6495ED },
     some ⟨"Cannot read properties of undefined (reading 'set')"⟩)
  else
    ({ s with
        ambientIntensity := 3/10
        directionalIntensity := 3/2
        directionalPos := ⟨100, 150, 50⟩
        directionalColor := 0xffffff },
     some ⟨"Cannot read properties of undefined (reading 'set')"⟩)

/-- Embedding of `updateBackground`: day sky blue or night navy by `isNight`. -/
def updateBackground (s : LightingState) : LightingState :=
  { s with background := if s.isNight then 0x0a1929 else 0x87CEEB }

/-- Lighting-relevant initial state: `setupLighting`'s constructor arguments
followed by the `updateBackground()` call in `init` (with `isNight = false`). -/
def initLighting : LightingState :=
  updateBackground
    { isNight := false
      ambientColor := 0xffffff
      ambientIntensity := 3/10
      directionalColor := 0xffffff
      directionalIntensity := 3/2
      directionalPos := ⟨100, 150, 50⟩
      hemiSkyColor := 0x87CEEB
      hemiGroundColor := 0x6b5d47
      hemiIntensity := 1/2
      background := 0 }

/-- Embedding of the night-mode-toggle change handler: set `isNight` to the
checkbox value, run `updateBackground()` (which succeeds), then
`updateLighting()`, whose `TypeError` aborts it mid-update and propagates out
of the handler uncaught. The mutations made before the throw persist, so the
handler's observable result is the first component. -/
def nightToggle (s : LightingState) (checked : Bool) : LightingState × Option TypeError :=
  updateLighting (updateBackground { s with isNight := checked })

/-- All three lights carry the day parameter tuple and the background is the
day sky blue. -/
def allDayValues (s : LightingState) : Prop :=
  s.ambientIntensity = 3/10 ∧ s.directionalIntensity = 3/2 ∧
  s.directionalPos = ⟨100, 150, 50⟩ ∧ s.directionalColor = 0xffffff ∧
  s.hemiSkyColor = 0x87CEEB ∧ s.hemiGroundColor = 0x6b5d47 ∧
  s.hemiIntensity = 1/2 ∧ s.background = 0x87CEEB

/-- All three lights carry the night parameter tuple and the background is
the night navy. -/
def allNightValues (s : LightingState) : Prop :=
  s.ambientIntensity = 1/10 ∧ s.directionalIntensity = 3/10 ∧
  s.directionalPos = ⟨-100, 80, -50⟩ ∧ s.directionalColor = 0x6495ED ∧
  s.hemiSkyColor = 0x0a1929 ∧ s.hemiGroundColor = 0x1a1a2e ∧
  s.hemiIntensity = 1/5 ∧ s.background = 0x0a1929

/-! ## PickingController (src/basic/main.js lines 231-277) -/

/-- Material of a scene object as the picking logic sees it: it may or may
not carry an `emissive` color (`MeshBasicMaterial` has none,
`MeshStandardMaterial` does). -/
structure ObjectMaterial where
  emissive : Option ℕ
  deriving Repr, DecidableEq

/-- Scene object reachable by the raycaster: display name, `userData`
key/value metadata, and an optional material. -/
structure SceneObject where
  name : String
  userData : List (String × String)
  material : Option ObjectMaterial
  deriving Repr, DecidableEq

/-- Emissive color of an object, when it has a material with an emissive
property; `none` when either is missing. -/
def emissiveOf (o : SceneObject) : Option ℕ :=
  match o.material with
  | some mat => mat.emissive
  | none => none

/-- Truth value of the source's guard `object.material && object.material.emissive`. -/
def supportsHighlight (o : SceneObject) : Bool :=
  (emissiveOf o).isSome

/-- Info-panel contents: either the object's metadata entries or the
`No attributes` placeholder. -/
inductive PanelDetails where
  | attributes (entries : List (String × String))
  | noAttributesPlaceholder
  deriving Repr, DecidableEq

/-- State of the info panel after `showObjectInfo` has written to it. -/
structure PanelState where
  objectName : String
  details : PanelDetails
  visible : Bool
  deriving Repr, DecidableEq

/-- Picking-relevant state: the store of scene objects (a JavaScript object
reference becomes an index into this list), `this.selectedObject` as an index,
and the info panel (`none` until first written). -/
structure PickState where
  objects : List SceneObject
  selected : Option ℕ
  panel : Option PanelState
  deriving Repr, DecidableEq

/-- Set the emissive color of the object at index `i` when that object
supports the property (`material && material.emissive`); otherwise leave the
store unchanged, mirroring the source's guards. -/
def setEmissiveAt (objs : List SceneObject) (i : ℕ) (color : ℕ) : List SceneObject :=
  match objs[i]? with
  | none => objs
  | some o =>
      match o.material with
      | none => objs
      | some mat =>
          match mat.emissive with
          | none => objs
          | some _ => objs.set i { o with material := some { mat with emissive := some color } }

/-- Embedding of `highlightObject`: reset the previously selected object's
emissive color to neutral black (guarded on it supporting the property), set
the clicked object's emissive color to the gold accent (same guard), and
record the clicked object as selected. -/
def highlightObject (s : PickState) (i : ℕ) : PickState :=
  let objs1 :=
    match s.selected with
    | some prev => setEmissiveAt s.objects prev 0x000000
    | none => s.objects
  let objs2 := setEmissiveAt objs1 i 0xffd700
  { s with objects := objs2, selected := some i }

/-- Embedding of `showObjectInfo`: write the object's name (or the
`Unnamed Object` fallback for an empty name) and its metadata (or the
placeholder when there is none) to the panel and make the panel visible. -/
def showObjectInfo (s : PickState) (i : ℕ) : PickState :=
  match s.objects[i]? with
  | none => s
  | some o =>
      let shown : PanelState :=
        { objectName := if o.name = "" then "Unnamed Object" else o.name
          details := if o.userData.isEmpty then .noAttributesPlaceholder
                     else .attributes o.userData
          visible := true }
      { s with panel := some shown }

/-- One entry of `raycaster.intersectObjects`: the hit object (as a store
index) and the hit distance. three.js returns these sorted by ascending
distance, so the nearest hit comes first. -/
structure Intersection where
  object : ℕ
  distance : ℚ
  deriving Repr, DecidableEq

/-- Embedding of `onClick` given the raycaster's intersection list: with no
intersection nothing happens; otherwise show the first (nearest) hit's info
and highlight it. The `this.mouse` vector and `this.raycaster` are per-click
scratch recomputed before every use and never read elsewhere, so they are
embedded as locals of the raycast rather than state. -/
def onClick (s : PickState) (intersects : List Intersection) : PickState :=
  match intersects with
  | [] => s
  | hit :: _ => highlightObject (showObjectInfo s hit.object) hit.object

/-! ## Concrete fixtures used by counterexamples and witnesses -/

/-- Concrete loaded model: a 100 × 50 × 50 box resting at the origin, node
translation zero (as for a freshly loaded glTF scene root). -/
def fitModel : ModelNode :=
  { localBox := { min := ⟨0, 0, 0⟩, max := ⟨100, 50, 50⟩ }
    position := ⟨0, 0, 0⟩
    meshesCastShadow := false
    meshesReceiveShadow := false }

/-- Viewer state holding `fitModel`, before fitting, with
`sinHalfFov = 1/2` (a 60° vertical field of view, `sin(30°) = 1/2`) and the
constructor's camera position. -/
def fitState : ViewerState :=
  { model := some fitModel
    initialized := false
    cameraPos := ⟨0, 100, 200⟩
    controlsTarget := ⟨0, 0, 0⟩
    sinHalfFov := 1/2 }

/-- Concrete model whose node sits 5 units above the origin: a 10 × 10 × 10
box with local minimum Y of 0 and node translation `(0, 5, 0)`. -/
def raisedModel : ModelNode :=
  { localBox := { min := ⟨0, 0, 0⟩, max := ⟨10, 10, 10⟩ }
    position := ⟨0, 5, 0⟩
    meshesCastShadow := false
    meshesReceiveShadow := false }

/-- Viewer state holding `raisedModel`, before fitting. -/
def raisedState : ViewerState :=
  { model := some raisedModel
    initialized := false
    cameraPos := ⟨0, 100, 200⟩
    controlsTarget := ⟨0, 0, 0⟩
    sinHalfFov := 1/2 }

/-- Concrete two-call basemap load sequence: OSM resolves, then satellite
resolves. -/
def loadSeq : List (String × FetchOutcome) :=
  [("osm", .success), ("satellite", .success)]

/-- Scene object that supports highlighting and currently carries the gold
accent (a previously selected object). -/
def objA : SceneObject :=
  { name := "A", userData := [], material := some ⟨some 0xffd700⟩ }

/-- Scene object that supports highlighting, currently neutral. -/
def objB : SceneObject :=
  { name := "B", userData := [("height", "12")], material := some ⟨some 0x000000⟩ }

/-- Scene object with no material at all: it does not support highlighting. -/
def objC : SceneObject :=
  { name := "", userData := [], material := none }

/-- Picking state in which `objA` (index 0) is selected and highlighted. -/
def pickStateA : PickState :=
  { objects := [objA, objB, objC], selected := some 0, panel := none }

/-! ## Helper lemmas -/

theorem initializeModel_guard_true {s : ViewerState} (h : s.initialized = true) :
    initializeModel s = s := by
  unfold initializeModel
  cases hm : s.model with
  | none => rfl
  | some m => simp [h]

theorem initializeModel_sets_guard {s : ViewerState} {m : ModelNode}
    (hm : s.model = some m) : (initializeModel s).initialized = true := by
  unfold initializeModel
  rw [hm]
  by_cases h : s.initialized = true
  · simp [h]
  · simp at h
    simp [h]

theorem initializeModel_not_initialized {s : ViewerState} {m : ModelNode}
    (hm : s.model = some m) (hi : s.initialized = false) :
    initializeModel s =
      { s with
          model := some (enableShadows (groundModel m))
          initialized := true
          cameraPos :=
            ⟨(boxCenter (worldBox (groundModel m))).x
               + fitDistance (maxDimOf (worldBox (groundModel m))) s.sinHalfFov * (1/2),
             (boxCenter (worldBox (groundModel m))).y
               + fitDistance (maxDimOf (worldBox (groundModel m))) s.sinHalfFov * (4/5),
             (boxCenter (worldBox (groundModel m))).z
               + fitDistance (maxDimOf (worldBox (groundModel m))) s.sinHalfFov * (1/2)⟩
          controlsTarget := boxCenter (worldBox (groundModel m)) } := by
  unfold initializeModel
  rw [hm, hi]
  rfl

theorem setEmissiveAt_ne {objs : List SceneObject} {i j : ℕ} (h : i ≠ j)
    (color : ℕ) : (setEmissiveAt objs i color)[j]? = objs[j]? := by
  unfold setEmissiveAt
  cases hg : objs[i]? with
  | none => rfl
  | some o =>
      cases hmat : o.material with
      | none => simp [hmat]
      | some mat =>
          cases hem : mat.emissive with
          | none => simp [hmat, hem]
          | some c =>
              simp only [hmat, hem]
              exact List.getElem?_set_ne h

theorem setEmissiveAt_no_support {objs : List SceneObject} {i : ℕ}
    {o : SceneObject} (hg : objs[i]? = some o)
    (hs : supportsHighlight o = false) (color : ℕ) :
    setEmissiveAt objs i color = objs := by
  unfold setEmissiveAt
  rw [hg]
  unfold supportsHighlight emissiveOf at hs
  cases hmat : o.material with
  | none => simp [hmat]
  | some mat =>
      rw [hmat] at hs
      cases hem : mat.emissive with
      | none => simp [hmat, hem]
      | some c => simp [hem] at hs

theorem setEmissiveAt_support {objs : List SceneObject} {i : ℕ}
    {o : SceneObject} {mat : ObjectMaterial} {c : ℕ}
    (hg : objs[i]? = some o) (hmat : o.material = some mat)
    (hem : mat.emissive = some c) (color : ℕ) :
    setEmissiveAt objs i color
      = objs.set i { o with material := some { mat with emissive := some color } } := by
  unfold setEmissiveAt
  rw [hg]
  simp [hmat, hem]

theorem showObjectInfo_objects (s : PickState) (i : ℕ) :
    (showObjectInfo s i).objects = s.objects := by
  unfold showObjectInfo
  cases s.objects[i]? with
  | none => rfl
  | some o => rfl

theorem showObjectInfo_selected (s : PickState) (i : ℕ) :
    (showObjectInfo s i).selected = s.selected := by
  unfold showObjectInfo
  cases s.objects[i]? with
  | none => rfl
  | some o => rfl

/-- Basemap invariant: the scene holds a ground-plane mesh count matching
whether the manager owns a mesh. -/
def MeshInv (s : BasemapState) : Prop :=
  (s.mapMesh = none → s.sceneMapMeshCount = 0) ∧
  (s.mapMesh ≠ none → s.sceneMapMeshCount = 1)

theorem meshInv_init : MeshInv initBasemap := by
  constructor <;> intro h <;> simp [initBasemap] at h ⊢

theorem createOrUpdateMap_mapMesh (s : BasemapState) (tex : Texture) :
    ∃ mesh, (createOrUpdateMap s tex).mapMesh = some mesh ∧
      mesh.material.map = tex := by
  unfold createOrUpdateMap
  cases s.mapMesh with
  | none => exact ⟨_, rfl, rfl⟩
  | some mesh => exact ⟨_, rfl, rfl⟩

theorem createOrUpdateMap_count (s : BasemapState) (tex : Texture) :
    (createOrUpdateMap s tex).sceneMapMeshCount =
      match s.mapMesh with
      | none => s.sceneMapMeshCount + 1
      | some _ => s.sceneMapMeshCount := by
  unfold createOrUpdateMap
  cases s.mapMesh with
  | none => rfl
  | some mesh => rfl

theorem meshInv_load {s : BasemapState} (h : MeshInv s) (t : String)
    (o : FetchOutcome) : MeshInv (loadBasemap s t o).1 := by
  cases o with
  | failure msg => exact h
  | success =>
      unfold loadBasemap
      unfold createOrUpdateMap
      cases hm : s.mapMesh with
      | none =>
          refine ⟨fun hc => ?_, fun _ => ?_⟩
          · simp at hc
          · simp [h.1 hm]
      | some mesh =>
          refine ⟨fun hc => ?_, fun _ => ?_⟩
          · simp at hc
          · exact h.2 (by rw [hm]; exact fun hc => Option.noConfusion hc)

theorem meshInv_runLoads {s : BasemapState} (h : MeshInv s)
    (seq : List (String × FetchOutcome)) : MeshInv (runLoads s seq) := by
  induction seq generalizing s with
  | nil => exact h
  | cons p rest ih => exact ih (meshInv_load h p.1 p.2)

theorem meshInv_count_le {s : BasemapState} (h : MeshInv s) :
    s.sceneMapMeshCount ≤ 1 := by
  cases hm : s.mapMesh with
  | none => rw [h.1 hm]; exact Nat.zero_le 1
  | some mesh =>
      rw [h.2 (by rw [hm]; exact fun hc => Option.noConfusion hc)]

theorem lastSuccessType_cons (t : String) (o : FetchOutcome)
    (rest : List (String × FetchOutcome)) :
    lastSuccessType ((t, o) :: rest) =
      match lastSuccessType rest with
      | some t' => some t'
      | none => match o with
                | .success => some t
                | .failure _ => none := rfl

theorem runLoads_no_success {seq : List (String × FetchOutcome)}
    (h : lastSuccessType seq = none) (s : BasemapState) :
    runLoads s seq = s := by
  induction seq generalizing s with
  | nil => rfl
  | cons p rest ih =>
      obtain ⟨t, o⟩ := p
      rw [lastSuccessType_cons] at h
      cases hr : lastSuccessType rest with
      | some t' => rw [hr] at h; simp at h
      | none =>
          rw [hr] at h
          cases o with
          | success => simp at h
          | failure msg =>
              show runLoads (loadBasemap s t (.failure msg)).1 rest = s
              exact ih hr s

theorem runLoads_last_success {seq : List (String × FetchOutcome)} {t : String}
    (h : lastSuccessType seq = some t) (s : BasemapState) :
    ∃ mesh, (runLoads s seq).mapMesh = some mesh ∧
      mesh.material.map = configuredTexture (urlForType t) := by
  induction seq generalizing s with
  | nil => simp [lastSuccessType] at h
  | cons p rest ih =>
      obtain ⟨t₀, o⟩ := p
      rw [lastSuccessType_cons] at h
      cases hr : lastSuccessType rest with
      | some t' =>
          rw [hr] at h
          simp at h
          subst h
          exact ih hr (loadBasemap s t₀ o).1
      | none =>
          rw [hr] at h
          cases o with
          | failure msg => simp at h
          | success =>
              simp at h
              subst h
              show ∃ mesh, (runLoads (loadBasemap s t₀ .success).1 rest).mapMesh = some mesh ∧ _
              rw [runLoads_no_success hr]
              exact createOrUpdateMap_mapMesh s (configuredTexture (urlForType t₀))

/-! ## Claim theorems -/

/-- Claim C1, counterexample: the camera is NOT at Euclidean distance
`|maxDim / sin(fov/2)| * 1.2` from the model's bounding-box center. On a
grounded 100-wide model with `sin(fov/2) = 1/2`, the fitting distance is 240
but the camera ends up strictly farther than 240 + 16 from the center
(it sits at `center + 240 * (0.5, 0.8, 0.5)`, at distance `240 * √1.14`),
so the claim fails by more than any per-unit epsilon of 16 units. -/
theorem camera_distance_claim_counterexample :
    maxDimOf (worldBox (groundModel fitModel)) = 100 ∧
    (initializeModel fitState).controlsTarget = boxCenter (worldBox (groundModel fitModel)) ∧
    distSq (initializeModel fitState).cameraPos (initializeModel fitState).controlsTarget
        ≠ (fitDistance 100 (1/2)) ^ 2 ∧
    (fitDistance 100 (1/2) + 16) ^ 2
        < distSq (initializeModel fitState).cameraPos (initializeModel fitState).controlsTarget := by
  have h := initializeModel_not_initialized (s := fitState) (m := fitModel) rfl rfl
  refine ⟨?_, ?_, ?_, ?_⟩
  · norm_num [fitModel, groundModel, enableShadows, worldBox, boxSize, maxDimOf, max_def]
  · rw [h]
  · rw [h]
    norm_num [fitModel, fitState, groundModel, enableShadows, worldBox, boxCenter,
      boxSize, maxDimOf, fitDistance, distSq, max_def]
  · rw [h]
    norm_num [fitModel, fitState, groundModel, enableShadows, worldBox, boxCenter,
      boxSize, maxDimOf, fitDistance, distSq, max_def]

/-- Claim C1, amended: after fitting, the squared Euclidean distance from the
camera to the bounding-box center is `(57/50) * distance²` where
`distance = |maxDim / sin(fov/2)| * 1.2`; that is, the camera sits at
`√1.14 ≈ 1.068` times the spec's claimed distance, because the offset
direction `(0.5, 0.8, 0.5)` is not a unit vector. -/
theorem camera_distance_sq_amended (s : ViewerState) (m : ModelNode)
    (hm : s.model = some m) (hi : s.initialized = false) :
    distSq (initializeModel s).cameraPos (initializeModel s).controlsTarget =
      (57/50) * (fitDistance (maxDimOf (worldBox (groundModel m))) s.sinHalfFov) ^ 2 := by
  rw [initializeModel_not_initialized hm hi]
  simp [distSq]
  ring

/-- Claim C1, witness: the amended distance relation evaluated on the
concrete fixture. -/
theorem camera_distance_sq_amended_witness :
    distSq (initializeModel fitState).cameraPos (initializeModel fitState).controlsTarget =
      (57/50) * (fitDistance (maxDimOf (worldBox (groundModel fitModel))) fitState.sinHalfFov) ^ 2 :=
  camera_distance_sq_amended fitState fitModel rfl rfl

/-- Claim C2, counterexample: grounding does not leave the minimum Y at 0 for
every initial vertical position of the model node. A model node raised 5
units ends with bounding-box minimum Y of -5, because `initializeModel`
assigns `model.position.y = -box.min.y` instead of translating by it. -/
theorem grounding_zero_counterexample :
    raisedModel.position.y = 5 ∧
    modelMinY (initializeModel raisedState) = some (-5) ∧
    some (-5 : ℚ) ≠ some (0 : ℚ) := by
  have h := initializeModel_not_initialized (s := raisedState) (m := raisedModel) rfl rfl
  refine ⟨rfl, ?_, by simp⟩
  rw [h]
  norm_num [raisedModel, raisedState, groundModel, enableShadows, worldBox, modelMinY]

/-- Claim C2, amended: after the grounding step the model's recomputed
bounding-box minimum Y equals the NEGATION of the node's initial Y position;
in particular it is 0 exactly for nodes whose initial vertical position is 0
(which is what the glTF loader produces for a fresh scene root). -/
theorem grounding_min_y_amended (s : ViewerState) (m : ModelNode)
    (hm : s.model = some m) (hi : s.initialized = false) :
    modelMinY (initializeModel s) = some (-(m.position.y)) ∧
    (m.position.y = 0 → modelMinY (initializeModel s) = some 0) := by
  have h1 : modelMinY (initializeModel s) = some (-(m.position.y)) := by
    rw [initializeModel_not_initialized hm hi]
    simp [modelMinY, worldBox, groundModel, enableShadows]
  exact ⟨h1, fun h0 => by rw [h1, h0]; norm_num⟩

/-- Claim C2, witness: the amended grounding relation on a node whose initial
vertical position is 0, where the minimum Y does land on 0. -/
theorem grounding_min_y_amended_witness :
    modelMinY (initializeModel fitState) = some 0 :=
  (grounding_min_y_amended fitState fitModel rfl rfl).2 rfl

/-- Claim C3: `initializeModel` is idempotent. Any state whose guard flag
`initialized` is set is left entirely unchanged by another invocation, and
once a loaded model has been fitted, running the fitting step again is a
no-op on the whole viewer state. -/
theorem initializeModel_idempotent :
    (∀ s : ViewerState, s.initialized = true → initializeModel s = s) ∧
    (∀ (s : ViewerState) (m : ModelNode), s.model = some m →
      initializeModel (initializeModel s) = initializeModel s) := by
  refine ⟨fun s h => initializeModel_guard_true h, fun s m hm => ?_⟩
  exact initializeModel_guard_true (initializeModel_sets_guard hm)

/-- Claim C3, witness: refitting the already-fitted concrete state changes
nothing. -/
theorem initializeModel_idempotent_witness :
    initializeModel (initializeModel fitState) = initializeModel fitState :=
  initializeModel_idempotent.2 fitState fitModel rfl

/-- Claim C4: over any sequence of two or more `loadBasemap` calls, at most
one ground-plane mesh ever exists after any prefix of the sequence, and when
some call has resolved, exactly one mesh exists and its material's texture is
the configured texture of the most recently resolved request's kind. -/
theorem basemap_single_mesh (seq : List (String × FetchOutcome))
    (hlen : 2 ≤ seq.length) :
    (∀ p rest, seq = p ++ rest → (runLoads initBasemap p).sceneMapMeshCount ≤ 1) ∧
    (∀ t, lastSuccessType seq = some t →
      ∃ mesh, (runLoads initBasemap seq).mapMesh = some mesh ∧
        (runLoads initBasemap seq).sceneMapMeshCount = 1 ∧
        mesh.material.map = configuredTexture (urlForType t)) := by
  constructor
  · intro p rest hsplit
    exact meshInv_count_le (meshInv_runLoads meshInv_init p)
  · intro t ht
    obtain ⟨mesh, hmesh, hmap⟩ := runLoads_last_success ht initBasemap
    refine ⟨mesh, hmesh, ?_, hmap⟩
    have hinv := meshInv_runLoads meshInv_init seq
    exact hinv.2 (by rw [hmesh]; exact fun hc => Option.noConfusion hc)

/-- Claim C4, witness: two resolved loads (OSM then satellite) leave exactly
one mesh carrying the satellite texture. -/
theorem basemap_single_mesh_witness :
    (runLoads initBasemap loadSeq).sceneMapMeshCount ≤ 1 ∧
    ∃ mesh, (runLoads initBasemap loadSeq).mapMesh = some mesh ∧
      (runLoads initBasemap loadSeq).sceneMapMeshCount = 1 ∧
      mesh.material.map = configuredTexture (urlForType "satellite") :=
  ⟨(basemap_single_mesh loadSeq (by decide)).1 loadSeq [] (List.append_nil loadSeq).symm,
   (basemap_single_mesh loadSeq (by decide)).2 "satellite" (by decide)⟩

/-- Claim C5, code bug: the lighting preset is NOT applied atomically. On the
first night toggle from the startup state, `updateLighting` throws a
`TypeError` at `this.hemisphereLight.skyColor.set(...)` — the property does
not exist on `THREE.HemisphereLight` (its sky color is `.color`) — after the
ambient and directional lights already carry their night values and before
any hemisphere assignment. The observable state mixes night
ambient/directional values with day hemisphere values, satisfying neither
the all-day nor the all-night tuple the claim requires; only the background
switch to the night navy happens as claimed. -/
theorem lighting_toggle_mixture :
    (nightToggle initLighting true).2.isSome = true ∧
    (nightToggle initLighting true).1.ambientIntensity = 1/10 ∧
    (nightToggle initLighting true).1.directionalIntensity = 3/10 ∧
    (nightToggle initLighting true).1.hemiSkyColor = 0x87CEEB ∧
    (nightToggle initLighting true).1.hemiGroundColor = 0x6b5d47 ∧
    (nightToggle initLighting true).1.hemiIntensity = 1/2 ∧
    (nightToggle initLighting true).1.background = 0x0a1929 ∧
    ¬ allDayValues (nightToggle initLighting true).1 ∧
    ¬ allNightValues (nightToggle initLighting true).1 := by
  refine ⟨rfl, rfl, rfl, rfl, rfl, rfl, rfl, fun h => ?_, fun h => ?_⟩
  · have hx : (1 : ℚ)/10 = 3/10 := h.1
    norm_num at hx
  · have hx : (0x87CEEB : ℕ) = 0x0a1929 := h.2.2.2.2.1
    norm_num at hx

/-- Claim C6: when a click selects object `i` while `prev` is selected, the
previous object's emissive color is reset to neutral black as part of the
highlight pass when it supports the property; when it does not (no material
or no emissive), the reset is skipped, the previous object is untouched, and
the pass still completes, selecting `i`. -/
theorem highlight_reset_previous (s : PickState) (prev i : ℕ) (o : SceneObject)
    (hsel : s.selected = some prev) (hobj : s.objects[prev]? = some o) :
    (supportsHighlight o = true → prev ≠ i →
      ∃ o', (highlightObject s i).objects[prev]? = some o' ∧
        emissiveOf o' = some 0x000000) ∧
    (supportsHighlight o = false →
      (highlightObject s i).objects[prev]? = some o) ∧
    (highlightObject s i).selected = some i := by
  have hobjs : (highlightObject s i).objects
      = setEmissiveAt (setEmissiveAt s.objects prev 0x000000) i 0xffd700 := by
    simp [highlightObject, hsel]
  refine ⟨fun hsup hne => ?_, fun hsup => ?_, rfl⟩
  · obtain ⟨c, hc⟩ := Option.isSome_iff_exists.mp hsup
    cases hmat : o.material with
    | none => simp [emissiveOf, hmat] at hc
    | some mat =>
        simp only [emissiveOf, hmat] at hc
        have hlt : prev < s.objects.length :=
          (List.getElem?_eq_some_iff.mp hobj).1
        rw [hobjs, setEmissiveAt_ne (Ne.symm hne),
            setEmissiveAt_support hobj hmat hc]
        refine ⟨_, List.getElem?_set_eq_of_lt _ hlt, ?_⟩
        simp [emissiveOf]
  · rw [hobjs, setEmissiveAt_no_support hobj hsup]
    by_cases hip : i = prev
    · rw [hip, setEmissiveAt_no_support hobj hsup]
      exact hobj
    · rw [setEmissiveAt_ne hip]
      exact hobj

/-- Claim C6, witness: selecting object 1 while the highlighted object 0 is
selected resets object 0's emissive color to black and selects object 1. -/
theorem highlight_reset_previous_witness :
    (∃ o', (highlightObject pickStateA 1).objects[0]? = some o' ∧
      emissiveOf o' = some 0x000000) ∧
    (highlightObject pickStateA 1).selected = some 1 :=
  ⟨(highlight_reset_previous pickStateA 0 1 objA rfl rfl).1 rfl (by decide),
   (highlight_reset_previous pickStateA 0 1 objA rfl rfl).2.2⟩

/-- Claim C7: a click whose ray intersects nothing leaves the entire picking
state — selection, object highlights, and info panel — unchanged. -/
theorem onClick_no_intersection (s : PickState) : onClick s [] = s := rfl

/-- Claim C8: `loadBasemap` rejects with a `LoadError` exactly when the
texture fetch fails, the failure is delivered through the returned
asynchronous result, and on failure the manager state is untouched (no mesh
created, no texture applied). -/
theorem loadBasemap_rejects_on_fetch_failure (s : BasemapState) (t : String)
    (o : FetchOutcome) :
    ((∃ e, (loadBasemap s t o).2 = Except.error e) ↔
      ∃ msg, o = FetchOutcome.failure msg) ∧
    (∀ msg, o = FetchOutcome.failure msg → (loadBasemap s t o).1 = s) := by
  cases o with
  | success =>
      refine ⟨⟨fun he => ?_, fun hm => ?_⟩, fun msg hmsg => FetchOutcome.noConfusion hmsg⟩
      · obtain ⟨e, he⟩ := he
        exact Except.noConfusion he
      · obtain ⟨msg, hmsg⟩ := hm
        exact FetchOutcome.noConfusion hmsg
  | failure m =>
      exact ⟨⟨fun _ => ⟨m, rfl⟩, fun _ => ⟨⟨m⟩, rfl⟩⟩, fun msg hmsg => rfl⟩

/-- Claim C8, witness: a failing fetch for the OSM kind leaves the fresh
manager unchanged and rejects with the load error. -/
theorem loadBasemap_rejects_on_fetch_failure_witness :
    (loadBasemap initBasemap "osm" (FetchOutcome.failure "network error")).1 = initBasemap ∧
    (loadBasemap initBasemap "osm" (FetchOutcome.failure "network error")).2
      = Except.error ⟨"network error"⟩ :=
  ⟨(loadBasemap_rejects_on_fetch_failure initBasemap "osm"
      (FetchOutcome.failure "network error")).2 "network error" rfl,
   rfl⟩

/-- Claim C9: calling `setVisible` with either flag before any basemap load
has resolved (no ground-plane mesh exists) raises no error and changes no
state. -/
theorem setVisible_without_mesh (s : BasemapState) (flag : Bool)
    (h : s.mapMesh = none) : setVisible s flag = s := by
  unfold setVisible
  rw [h]

/-- Claim C9, witness: `setVisible true` on the fresh manager is a no-op. -/
theorem setVisible_without_mesh_witness :
    setVisible initBasemap true = initBasemap :=
  setVisible_without_mesh initBasemap true rfl

/-- Claim C10: a click whose intersection list is nonempty (with the first
entry nearest, as the raycaster guarantees) unconditionally selects the first
intersected object — even when that object does not support the highlight
property, in which case it is selected while its material state is left
untouched. -/
theorem click_selects_nearest (s : PickState) (hit : Intersection)
    (rest : List Intersection)
    (hnear : ∀ h ∈ hit :: rest, hit.distance ≤ h.distance) :
    (onClick s (hit :: rest)).selected = some hit.object ∧
    (∀ o, s.objects[hit.object]? = some o → supportsHighlight o = false →
      (onClick s (hit :: rest)).objects[hit.object]? = some o) := by
  refine ⟨rfl, fun o ho hs => ?_⟩
  cases hsel : s.selected with
  | none =>
      have hobjs : (onClick s (hit :: rest)).objects
          = setEmissiveAt s.objects hit.object 0xffd700 := by
        show (highlightObject (showObjectInfo s hit.object) hit.object).objects = _
        simp [highlightObject, showObjectInfo_objects, showObjectInfo_selected, hsel]
      rw [hobjs, setEmissiveAt_no_support ho hs]
      exact ho
  | some prev =>
      have hobjs : (onClick s (hit :: rest)).objects
          = setEmissiveAt (setEmissiveAt s.objects prev 0x000000) hit.object 0xffd700 := by
        show (highlightObject (showObjectInfo s hit.object) hit.object).objects = _
        simp [highlightObject, showObjectInfo_objects, showObjectInfo_selected, hsel]
      rw [hobjs]
      by_cases hpi : prev = hit.object
      · rw [hpi, setEmissiveAt_no_support ho hs, setEmissiveAt_no_support ho hs]
        exact ho
      · have h1 : (setEmissiveAt s.objects prev 0x000000)[hit.object]? = some o := by
          rw [setEmissiveAt_ne hpi]
          exact ho
        rw [setEmissiveAt_no_support h1 hs]
        exact h1

/-- Claim C10, witness: clicking the material-less object at index 2 selects
it and leaves it untouched. -/
theorem click_selects_nearest_witness :
    (onClick pickStateA [⟨2, 5⟩]).selected = some 2 ∧
    (onClick pickStateA [⟨2, 5⟩]).objects[2]? = some objC :=
  ⟨(click_selects_nearest pickStateA ⟨2, 5⟩ [] (by simp)).1,
   (click_selects_nearest pickStateA ⟨2, 5⟩ [] (by simp)).2 objC rfl rfl⟩

end GeoVision
